import Mathlib

/-!
Verification development for the openIMIS monitoring_evaluation module
(`monitoring_evaluation/indicators_services.py`, `validations.py`,
`services.py`, `models.py`).

The Python code is shallowly embedded: Django querysets become Lean `List`s,
dates and datetimes become `Int` (day numbers), Python floats become `ℚ`,
nullable columns become `Option`, and functions that may raise become
`Except String`.  Function and field names follow the source (the Python
leading underscore of `_save_value` / `_safe_percent` is dropped).
-/

/-!
Verification development for the openIMIS monitoring_evaluation module
(`monitoring_evaluation/indicators_services.py`, `validations.py`,
`services.py`, `models.py`).

The Python code is shallowly embedded: Django querysets become Lean `List`s,
dates and datetimes become `Int` (day numbers), Python floats become `ℚ`,
nullable columns become `Option`, and functions that may raise become
`Except String`.  Function and field names follow the source (the Python
leading underscore of `_save_value` / `_safe_percent` is dropped).
-/
/-! ### Python-value helpers -/
/-- A heterogeneous JSON value as found in `json_ext` payloads: a JSON
number, a string that `float()` can parse (carrying the parsed value), a
non-numeric string, or JSON null. -/
inductive JVal
  | num (q : ℚ)
  | numStr (q : ℚ)
  | str (s : String)
  | nullv
  deriving DecidableEq, Repr

/-- Python `float(x)`: succeeds on numbers and numeric strings, raises
(`none`) on other strings and on `None`. -/
def pyFloat : JVal → Option ℚ
  | JVal.num q => some q
  | JVal.numStr q => some q
  | JVal.str _ => none
  | JVal.nullv => none

/-- Truncation toward zero, the rounding used by Python `int()` on a float. -/
def ratTrunc (q : ℚ) : ℤ :=
  if 0 ≤ q then ⌊q⌋ else -⌊-q⌋

/-- The source pattern `try: x = float(v) except: x = 0`. -/
def floatOr0 : JVal → ℚ :=
  fun v => (pyFloat v).getD 0

/-- The source pattern `try: x = int(float(v)) except: x = 0`. -/
def intFloatOr0 : JVal → ℤ :=
  fun v => match pyFloat v with
    | some q => ratTrunc q
    | none => 0

/-- Python `int(x)` applied directly to a JSON value: floats truncate,
strings parse only when they denote an integer, anything else raises. -/
def pyInt : JVal → Option ℤ
  | JVal.num q => some (ratTrunc q)
  | JVal.numStr q => if q.den = 1 then some q.num else none
  | JVal.str _ => none
  | JVal.nullv => none

/-- Python `round(x, 2)`.  Modelled over `ℚ` with Mathlib `round`
(Python rounds ties to even on binary floats; the claims below never sit
on a tie, so the tie-breaking mode is immaterial). -/
def round2 (q : ℚ) : ℚ :=
  ((round (q * 100) : ℤ) : ℚ) / 100

/-- Model of `_safe_percent(num, den)` from `indicators_services.py`:
`round((num / den) * 100, 2) if den else 0.0`. -/
def safe_percent (num den : ℕ) : ℚ :=
  if den ≠ 0 then round2 (((num : ℚ) / (den : ℚ)) * 100) else 0

/-! ### IndicatorValue store and `_save_value` -/
/-- One persisted `IndicatorValue` row.  `value`, `qualitative_value` and
`source` are nullable columns. -/
structure IVRow where
  indicator : String
  period_start : Int
  period_end : Int
  region_code : Option String
  gender : Option String
  value : Option ℚ
  qualitative_value : Option String
  source : Option String
  validated : Bool
  deriving DecidableEq, Repr

/-- Outcome of one `_save_value` call: row created, row written with at
least one changed field, or no write at all. -/
inductive SaveAction
  | created
  | updated
  | noop
  deriving DecidableEq, Repr

/-- The uniqueness key (indicator, period_start, period_end, region_code,
gender) used by the `_save_value` lookup and by the model-level
`UniqueConstraint`. -/
def ivKeyMatch (r : IVRow) (indicator : String) (start finish : Int)
    (region gender : Option String) : Bool :=
  r.indicator == indicator && r.period_start == start && r.period_end == finish
    && r.region_code == region && r.gender == gender

/-- The `IndicatorValue.objects.filter(...).first()` lookup of `_save_value`. -/
def findIndicatorValue (store : List IVRow) (indicator : String)
    (start finish : Int) (region gender : Option String) : Option IVRow :=
  store.find? (fun r => ivKeyMatch r indicator start finish region gender)

/-- The row written by the update branch of `_save_value`: the source
assigns `value`, `source` only when they differ and always ends with
`validated = True`, so the stored row ends up with exactly these fields. -/
def updatedIVRow (r : IVRow) (value : ℚ) (source : String) : IVRow :=
  { r with value := some value, source := some source, validated := true }

/-- Model of `_save_value(indicator, start, end, value, region, gender, source)`.
Looks up the row by the uniqueness key; creates it (with
`validated=True`) when absent; otherwise writes only when `value`,
`source` or `validated` actually change, mirroring the three
change-detection `if`s of the source. -/
def save_value (store : List IVRow) (indicator : String) (start finish : Int)
    (value : ℚ) (region gender : Option String) (source : String) :
    SaveAction × List IVRow :=
  match findIndicatorValue store indicator start finish region gender with
  | none =>
    (SaveAction.created,
      store ++ [{ indicator := indicator, period_start := start,
                  period_end := finish, region_code := region,
                  gender := gender, value := some value,
                  qualitative_value := none, source := some source,
                  validated := true }])
  | some r =>
    if r.value != some value || r.source != some source || !r.validated then
      (SaveAction.updated,
        store.map (fun x =>
          if ivKeyMatch x indicator start finish region gender then
            updatedIVRow x value source
          else x))
    else
      (SaveAction.noop, store)

/-! ### Manual-entry validation (`validations.py`, `services.py`) -/
/-- Python truthiness of an optional string: `None` and `""` are falsy. -/
def truthyStr : Option String → Bool
  | none => false
  | some s => !(s == "")

/-- Model of `validate_value_fields(data)` from `validations.py`: one error when
neither a numeric `value` (`value is None`) nor a truthy
`qualitative_value` is given, one error when both are given. -/
def validate_value_fields (value : Option ℚ)
    (qualitative_value : Option String) : List String :=
  (if value.isNone && !truthyStr qualitative_value then
    ["Vous devez fournir une valeur numérique ou une valeur qualitative."]
  else []) ++
  (if value.isSome && truthyStr qualitative_value then
    ["Vous ne pouvez pas fournir une valeur numérique et une valeur qualitative simultanément."]
  else [])

/-- Input of `CreateManualIndicatorValueMutation` as passed to
`IndicatorValueService.create` (all GraphQL fields optional except where
the schema requires them; requiredness is not re-checked here). -/
structure IVInput where
  indicator_id : Option String
  period_start : Option Int
  period_end : Option Int
  region_code : Option String
  gender : Option String
  value : Option ℚ
  qualitative_value : Option String
  source : Option String
  validated : Bool
  deriving DecidableEq, Repr

/-- Model of `validate_indicator_value_uniqueness(data)` on the create path (no
`id` in the data).  The store holds the live rows, so the
queryset restriction `is_deleted=False` is implicit. -/
def validate_indicator_value_uniqueness (store : List IVRow)
    (indicator_id : Option String) (period_start period_end : Option Int)
    (region_code gender : Option String) : List String :=
  match indicator_id, period_start, period_end with
  | some ind, some ps, some pe =>
    if store.any (fun r => ivKeyMatch r ind ps pe region_code gender) then
      ["Il existe déjà une valeur enregistrée pour cet indicateur sur cette période et cette ventilation."]
    else []
  | _, _, _ => []

/-- Model of `IndicatorValueValidation.validate_create`: collects the uniqueness
errors then the value-field errors and raises when any exist. -/
def indicatorValueValidationCreate (store : List IVRow) (inp : IVInput) :
    List String :=
  validate_indicator_value_uniqueness store inp.indicator_id inp.period_start
      inp.period_end inp.region_code inp.gender
    ++ validate_value_fields inp.value inp.qualitative_value

/-- The row persisted by a successful manual create.  The `getD` defaults
stand for the database-level NOT NULL requirements on the key columns. -/
def mkManualIVRow (inp : IVInput) : IVRow :=
  { indicator := inp.indicator_id.getD "", period_start := inp.period_start.getD 0,
    period_end := inp.period_end.getD 0, region_code := inp.region_code,
    gender := inp.gender, value := inp.value,
    qualitative_value := inp.qualitative_value, source := inp.source,
    validated := inp.validated }

/-- Model of `IndicatorValueService.create` restricted to the validation/persist
step: `validate_create` raises (`Except.error`, nothing persisted) when
any error was collected, otherwise the row is saved. -/
def indicatorValueServiceCreate (store : List IVRow) (inp : IVInput) :
    Except (List String) (List IVRow) :=
  let errs := indicatorValueValidationCreate store inp
  if errs.isEmpty then Except.ok (store ++ [mkManualIVRow inp])
  else Except.error errs

/-! ### Data source descriptors and the aggregation engine -/
/-- One `_save_value(...)` invocation issued by a computation. -/
structure SaveCall where
  indicator : String
  start : Int
  finish : Int
  value : ℚ
  region : Option String
  gender : Option String
  source : String
  deriving DecidableEq, Repr

/-- A row of the entity targeted by a descriptor: `date` is the value of
the value of the descriptor field `date_field`, `fields` the integer-valued columns used
by equality filters and `distinct_field`, `numfields` the numeric
columns used by `value_field` (a missing key is SQL NULL). -/
structure DRow where
  date : Int
  fields : List (String × Int)
  numfields : List (String × ℚ)
  deriving DecidableEq, Repr

/-- Model of `DataSourceDescriptor` as consumed by
`compute_indicator_from_datasource`: target entity, aggregation kind,
generic equality `filters` (an empty dict is falsy and skipped), and the
PERCENT-only numerator/denominator filter sets (`None` defaults to the
empty dict). -/
structure DataSourceDescriptor where
  is_active : Bool
  module : String
  model : String
  date_field : String
  aggregation : String
  value_field : String
  distinct_field : String
  filters : List (String × Int)
  numerator_filters : Option (List (String × Int))
  denominator_filters : Option (List (String × Int))
  deriving DecidableEq, Repr

/-- Model of `Indicator` with the fields the batch orchestrator reads. -/
structure Indicator where
  code : String
  is_active : Bool
  method : String
  formula : Option String
  data_source : Option DataSourceDescriptor
  deriving DecidableEq, Repr

/-- Conjunctive equality filters (`qs.filter(**kwargs)`). -/
def matchesFilters (fs : List (String × Int)) (r : DRow) : Bool :=
  fs.all (fun kv => r.fields.lookup kv.1 == some kv.2)

/-- Model of `date_field__range=(start, end)`: inclusive on both ends. -/
def rowInRange (start finish : Int) (r : DRow) : Bool :=
  decide (start ≤ r.date) && decide (r.date ≤ finish)

/-- The queryset after the date-range filter and the generic filters. -/
def dsFilteredRows (ds : DataSourceDescriptor) (rows : List DRow)
    (start finish : Int) : List DRow :=
  let qs := rows.filter (rowInRange start finish)
  if ds.filters.isEmpty then qs else qs.filter (matchesFilters ds.filters)

/-- Model of `qs.filter(**extra).values(distinct_field).distinct().count()`. -/
def distinctCountUnder (ds : DataSourceDescriptor) (rows : List DRow)
    (start finish : Int) (extra : List (String × Int)) : ℕ :=
  (((dsFilteredRows ds rows start finish).filter (matchesFilters extra)).map
    (fun r => r.fields.lookup ds.distinct_field)).dedup.length

/-- Model of `qs.aggregate(total=Sum(value_field))["total"]`: SQL SUM ignores
NULLs (`getD 0`) and yields NULL on an empty queryset. -/
def sumAggregate (vf : String) (qs : List DRow) : Option ℚ :=
  if qs.isEmpty then none
  else some ((qs.map (fun r => (r.numfields.lookup vf).getD 0)).sum)

/-- Python `x or 0` on an optional number: `None` and `0.0` give `0`. -/
def pyOrZero : Option ℚ → ℚ
  | none => 0
  | some q => if q = 0 then 0 else q

/-- Model of `compute_indicator_from_datasource(indicator, start, end)`: returns
without saving when the indicator has no active descriptor; resolves the
target entity; filters by date range and generic filters; dispatches on
the aggregation kind (an unknown kind raises `ValueError`); saves the
scalar via `_save_value` with the default `"SYSTEM"` source. -/
def compute_indicator_from_datasource
    (tables : List ((String × String) × List DRow)) (ind : Indicator)
    (start finish : Int) : Except String (List SaveCall) :=
  match ind.data_source with
  | none => Except.ok []
  | some ds =>
    if !ds.is_active then Except.ok []
    else
      match tables.lookup (ds.module, ds.model) with
      | none => Except.error ("LookupError: " ++ ds.module ++ "." ++ ds.model)
      | some rows =>
        let qs := dsFilteredRows ds rows start finish
        if ds.aggregation == "COUNT" then
          Except.ok [⟨ind.code, start, finish, (qs.length : ℚ), none, none,
            "SYSTEM"⟩]
        else if ds.aggregation == "COUNT_DISTINCT" then
          Except.ok [⟨ind.code, start, finish,
            (((qs.map (fun r => r.fields.lookup ds.distinct_field)).dedup).length : ℚ),
            none, none, "SYSTEM"⟩]
        else if ds.aggregation == "SUM" then
          Except.ok [⟨ind.code, start, finish,
            pyOrZero (sumAggregate ds.value_field qs), none, none, "SYSTEM"⟩]
        else if ds.aggregation == "PERCENT" then
          Except.ok [⟨ind.code, start, finish,
            safe_percent
              (distinctCountUnder ds rows start finish
                (ds.numerator_filters.getD []))
              (distinctCountUnder ds rows start finish
                (ds.denominator_filters.getD [])), none, none, "SYSTEM"⟩]
        else
          Except.error ("Aggregation inconnue: " ++ ds.aggregation)

/-! ### External tables read by the custom formulas -/
/-- A date-like value found in `json_ext`: a parseable datetime or a
string `datetime.fromisoformat` rejects. -/
inductive DateVal
  | dt (d : Int)
  | badStr
  deriving DecidableEq, Repr

/-- A grievance `Ticket`.  `json_submitted_at` is `json_ext["submitted_at"]`
(`none` when the key is absent or falsy, which makes `or` fall back to
`date_created`); enum statuses are modelled by their names. -/
structure Ticket where
  status : String
  json_submitted_at : Option DateVal
  date_created : Option Int
  deriving DecidableEq, Repr

/-- A social-protection `BenefitPlan`. -/
structure BenefitPlan where
  code : String
  deriving DecidableEq, Repr

/-- A `Beneficiary`; `benefit_plan` is the FK by plan code, and the two
`individual_*` fields are the joined `individual.json_ext` values the
formulas read. -/
structure Beneficiary where
  individual_id : Int
  individual_sexe_bp : Option String
  individual_n_membres : Option JVal
  benefit_plan : String
  status : String
  is_deleted : Bool
  date_created : Int
  deriving DecidableEq, Repr

/-- A payroll `BenefitConsumption`; `individual_sexe_bp` is the joined
`individual__json_ext__sexe_bp` value and `benefit_individual_id` the
value of the `benefit__individual_id` path used by `calc_ODP_003`. -/
structure BenefitConsumption where
  individual_id : Int
  individual_sexe_bp : Option String
  benefit_individual_id : Int
  status : String
  date_due : Int
  is_deleted : Bool
  deriving DecidableEq, Repr

/-- A `MonitoringSubmission`; each field after `submitted_at` is the
`json_ext` value at the dotted path the formulas read (`none` = absent):
`groupe_ben.groupe_ajoute_preload.code_menage`,
`groupe_identite.groupe_ajoute_preload.sere_nbre`,
`groupe_epargne.montant_total_epargne`, `groupe_epargne.valeur_epargne`,
`groupe_epargne.nb_credit_en_cours`; `reglement_oui` is the
`reglement_sere.reglementInterieur` icontains-"Oui" criterion and
`nbre_homme` the `groupe_presence.nbre_homme` count. -/
structure Submission where
  form_type : String
  submitted_at : Option Int
  code_menage : Option Int
  sere_nbre : Option JVal
  montant_total_epargne : Option JVal
  valeur_epargne : Option JVal
  nb_credit_en_cours : Option JVal
  reglement_oui : Bool
  nbre_homme : Int
  deriving DecidableEq, Repr

/-- The database state a batch run reads, plus `now` (the day
`datetime.now()` returns inside `prepare_sla`). -/
structure World where
  indicators : List Indicator
  tables : List ((String × String) × List DRow)
  tickets : List Ticket
  benefit_plans : List BenefitPlan
  beneficiaries : List Beneficiary
  benefit_consumptions : List BenefitConsumption
  submissions : List Submission
  now : Int
  deriving DecidableEq, Repr

/-- Substring test, used for the Django `icontains` lookup. -/
def strContains (s pat : String) : Bool :=
  decide (2 ≤ (s.splitOn pat).length)

/-- Model of `code__icontains="TMU"`: case-insensitive containment. -/
def icontainsTMU (code : String) : Bool :=
  strContains code.toLower "tmu"

/-- The result dict of `prepare_sla` (dates as day numbers). -/
structure SlaInfo where
  submitted_at : Int
  due_date : Int
  days_remaining : Int
  sla_state : String
  deriving DecidableEq, Repr

/-- Model of `prepare_sla(instance)`: takes `json_ext["submitted_at"]` or falls
back to `date_created`; `None`/unparseable gives `None`; otherwise due
date is submission + 21 days (`SLA_DAYS`), with a 3-day warning window
(`WARN_WINDOW`) against `now`. -/
def prepare_sla (now : Int) (t : Ticket) : Option SlaInfo :=
  let submitted := match t.json_submitted_at with
    | some v => some v
    | none => t.date_created.map DateVal.dt
  match submitted with
  | none => none
  | some DateVal.badStr => none
  | some (DateVal.dt d) =>
    let due := d + 21
    let delta := due - now
    let state := if delta < 0 then "En depassement"
      else if delta ≤ 3 then "En alerte"
      else "Dans les délais"
    some { submitted_at := d, due_date := due, days_remaining := delta,
           sla_state := state }

/-! ### Custom formula functions -/
/-- Model of `calc_IRI_012`: % of grievance tickets treated within the SLA.  Note
the early `return` when there is no ticket at all: nothing is saved. -/
def calc_IRI_012 (w : World) (ind : Indicator) (start finish : Int) :
    Except String (List SaveCall) :=
  let tickets := w.tickets
  let total_received := tickets.length
  if total_received = 0 then Except.ok []
  else
    let treated := tickets.filter
      (fun t => t.status == "RESOLVED" || t.status == "CLOSED")
    let treated_on_time := (treated.filter (fun t =>
      match prepare_sla w.now t with
      | some sla => sla.sla_state == "Dans les délais"
      | none => false)).length
    Except.ok [⟨ind.code, start, finish,
      round2 (((treated_on_time : ℚ) / (total_received : ℚ)) * 100),
      none, none, "Grievance / Social Protection"⟩]

/-- Model of `calc_ODP_002`: distinct count of TMU beneficiaries paid in the
period. -/
def calc_ODP_002 (w : World) (ind : Indicator) (start finish : Int) :
    Except String (List SaveCall) :=
  let tmu_codes := (w.benefit_plans.filter (fun p => icontainsTMU p.code)).map
    (fun p => p.code)
  let beneficiaries := w.beneficiaries.filter
    (fun b => tmu_codes.contains b.benefit_plan && b.status == "ACTIVE")
  let ids := beneficiaries.map (fun b => b.individual_id)
  let paid_benefits := w.benefit_consumptions.filter (fun c =>
    ids.contains c.individual_id
      && (c.status == "ACCEPTED" || c.status == "RECONCILED")
      && decide (start ≤ c.date_due) && decide (c.date_due ≤ finish))
  let count := ((paid_benefits.map (fun c => c.individual_id)).dedup).length
  Except.ok [⟨ind.code, start, finish, (count : ℚ), none, none,
    "Payroll / Social Protection"⟩]

/-- Model of `calc_ODP_003`: % of women among paid TMU beneficiaries (the
numerator counts the distinct `benefit__individual_id` path). -/
def calc_ODP_003 (w : World) (ind : Indicator) (start finish : Int) :
    Except String (List SaveCall) :=
  let tmu_codes := (w.benefit_plans.filter (fun p => icontainsTMU p.code)).map
    (fun p => p.code)
  let beneficiaries := w.beneficiaries.filter
    (fun b => tmu_codes.contains b.benefit_plan && b.status == "ACTIVE")
  let ids := beneficiaries.map (fun b => b.individual_id)
  let paid_benefits := w.benefit_consumptions.filter (fun c =>
    ids.contains c.individual_id
      && (c.status == "ACCEPTED" || c.status == "RECONCILED")
      && decide (start ≤ c.date_due) && decide (c.date_due ≤ finish))
  let total_paid := ((paid_benefits.map (fun c => c.individual_id)).dedup).length
  let value :=
    if total_paid = 0 then 0
    else
      let women_paid := (((paid_benefits.filter
        (fun c => c.individual_sexe_bp == some "F")).map
          (fun c => c.benefit_individual_id)).dedup).length
      round2 (((women_paid : ℚ) / (total_paid : ℚ)) * 100)
  Except.ok [⟨ind.code, start, finish, value, none, some "F",
    "Payroll / Social Protection"⟩]

/-- Model of `calc_ODP_004`: distinct count of active TMR beneficiaries paid in
the period; saves `0` (default `"SYSTEM"` source) when there is no
active TMR beneficiary. -/
def calc_ODP_004 (w : World) (ind : Indicator) (start finish : Int) :
    Except String (List SaveCall) :=
  let beneficiaries_qs := (w.beneficiaries.filter (fun b =>
    b.benefit_plan == "TMR" && b.status == "ACTIVE" && !b.is_deleted)).map
      (fun b => b.individual_id)
  if beneficiaries_qs.isEmpty then
    Except.ok [⟨ind.code, start, finish, 0, none, none, "SYSTEM"⟩]
  else
    let paid_individuals := (((w.benefit_consumptions.filter (fun c =>
      beneficiaries_qs.contains c.individual_id
        && decide (start ≤ c.date_due) && decide (c.date_due ≤ finish)
        && (c.status == "ACCEPTED" || c.status == "RECONCILED")
        && !c.is_deleted)).map (fun c => c.individual_id)).dedup).length
    Except.ok [⟨ind.code, start, finish, (paid_individuals : ℚ), none, none,
      "Payroll / Social Protection"⟩]

/-- Model of `calc_ODP_005`: % of women among paid TMR beneficiaries.  The
non-empty branch evaluates the name `Individual`, which
`indicators_services.py` never imports, so reaching it raises a
`NameError`. -/
def calc_ODP_005 (w : World) (ind : Indicator) (start finish : Int) :
    Except String (List SaveCall) :=
  let beneficiaries_qs := (w.beneficiaries.filter (fun b =>
    b.benefit_plan == "TMR" && b.status == "ACTIVE" && !b.is_deleted)).map
      (fun b => b.individual_id)
  if beneficiaries_qs.isEmpty then
    Except.ok [⟨ind.code, start, finish, 0, none, none, "SYSTEM"⟩]
  else
    let paid_individuals := ((w.benefit_consumptions.filter (fun c =>
      beneficiaries_qs.contains c.individual_id
        && decide (start ≤ c.date_due) && decide (c.date_due ≤ finish)
        && (c.status == "ACCEPTED" || c.status == "RECONCILED")
        && !c.is_deleted)).map (fun c => c.individual_id)).dedup
    let total_paid := paid_individuals.length
    if total_paid = 0 then
      Except.ok [⟨ind.code, start, finish, 0, none, none, "SYSTEM"⟩]
    else
      Except.error "NameError: name Individual is not defined"

/-- Model of `calc_ODP_006`: direct beneficiaries plus, per beneficiary,
`max(n_membres - 1, 0)` indirect ones; `n_membres` defaults to 1 and
falls back to 1 on a failed `int()` coercion. -/
def calc_ODP_006 (w : World) (ind : Indicator) (start finish : Int) :
    Except String (List SaveCall) :=
  let beneficiaries_qs := w.beneficiaries.filter (fun b =>
    b.status == "ACTIVE" && !b.is_deleted && decide (b.date_created ≤ finish))
  if beneficiaries_qs.isEmpty then
    Except.ok [⟨ind.code, start, finish, 0, none, none, "SYSTEM"⟩]
  else
    let total_direct := beneficiaries_qs.length
    let total_indirect := (beneficiaries_qs.map (fun b =>
      max ((pyInt (b.individual_n_membres.getD (JVal.num 1))).getD 1 - 1) 0)).sum
    Except.ok [⟨ind.code, start, finish,
      ((total_direct : ℚ) + (total_indirect : ℚ)), none, none,
      "Social Protection / Individual"⟩]

/-- Model of `calc_PIP_011`: distinct count of household codes on registration
forms (note the two different provenance labels between the empty and
non-empty branches, both as in the source). -/
def calc_PIP_011 (w : World) (ind : Indicator) (start finish : Int) :
    Except String (List SaveCall) :=
  let qs := w.submissions.filter
    (fun s => s.form_type == "FICHE_ENREG_BENEFICIAIRE")
  if qs.isEmpty then
    Except.ok [⟨ind.code, start, finish, 0, none, none,
      "Fiche d’enregistrement"⟩]
  else
    let count := ((qs.filterMap (fun s => s.code_menage)).dedup).length
    Except.ok [⟨ind.code, start, finish, (count : ℚ), none, none,
      "Fiche d’enregistrement des bénéficiaires"⟩]

/-- Model of `calc_PIP_013`: count of Sèrè-Nafa constitution forms submitted up
to the period end (the only Sèrè formula with a live date filter). -/
def calc_PIP_013 (w : World) (ind : Indicator) (start finish : Int) :
    Except String (List SaveCall) :=
  let qs := w.submissions.filter (fun s =>
    s.form_type == "CONSTITUTION_SERE_NAFA"
      && (match s.submitted_at with
          | some d => decide (d ≤ finish)
          | none => false))
  if qs.isEmpty then
    Except.ok [⟨ind.code, start, finish, 0, none, none,
      "Fiche de constitution des Sèrès Nafa"⟩]
  else
    Except.ok [⟨ind.code, start, finish, (qs.length : ℚ), none, none,
      "Fiche de constitution des Sèrès Nafa"⟩]

/-- Model of `calc_PIP_014`: % of monitored Sèrè Nafa functioning satisfactorily
(the date-range filter is commented out in the source). -/
def calc_PIP_014 (w : World) (ind : Indicator) (start finish : Int) :
    Except String (List SaveCall) :=
  let qs := w.submissions.filter (fun s => s.form_type == "FICHE_SUIVI_SERE_NAFA")
  if qs.isEmpty then
    Except.ok [⟨ind.code, start, finish, 0, none, none,
      "Fiche de suivi des Sèrès Nafa"⟩]
  else
    let total_sere := qs.length
    if total_sere = 0 then
      Except.ok [⟨ind.code, start, finish, 0, none, none,
        "Fiche de suivi des Sèrès Nafa"⟩]
    else
      let functioning_sere := (qs.filter (fun s =>
        s.reglement_oui && decide (0 < s.nbre_homme))).length
      Except.ok [⟨ind.code, start, finish,
        round2 (((functioning_sere : ℚ) / (total_sere : ℚ)) * 100),
        none, none, "Fiche de suivi des Sèrès Nafa"⟩]

/-- Model of `calc_PIP_015`: average savings per Sèrè-Nafa member (no date
filter: the `submitted_at__range` filter is commented out). -/
def calc_PIP_015 (w : World) (ind : Indicator) (start finish : Int) :
    Except String (List SaveCall) :=
  let qs := w.submissions.filter (fun s => s.form_type == "FICHE_SUIVI_SERE_NAFA")
  if qs.isEmpty then
    Except.ok [⟨ind.code, start, finish, 0, none, none,
      "Fiche de suivi des Sèrès Nafa"⟩]
  else
    let totals := qs.foldl (fun acc sub =>
      let epargne := floatOr0 (sub.montant_total_epargne.getD (JVal.num 0))
      let membres := intFloatOr0 (sub.sere_nbre.getD (JVal.num 0))
      if 0 < membres then (acc.1 + epargne, acc.2 + membres) else acc)
      ((0 : ℚ), (0 : ℤ))
    let value := if totals.2 = 0 then 0 else round2 (totals.1 / (totals.2 : ℚ))
    Except.ok [⟨ind.code, start, finish, value, none, none,
      "Fiche de suivi des Sèrès Nafa"⟩]

/-- Model of `calc_PIP_016`: projected cumulative savings
`membres × 0.8 × valeur_part × 36` summed over submissions with positive
member count and share value (no date filter). -/
def calc_PIP_016 (w : World) (ind : Indicator) (start finish : Int) :
    Except String (List SaveCall) :=
  let qs := w.submissions.filter (fun s => s.form_type == "FICHE_SUIVI_SERE_NAFA")
  if qs.isEmpty then
    Except.ok [⟨ind.code, start, finish, 0, none, none,
      "Fiche de suivi des Sèrès Nafa"⟩]
  else
    let total := qs.foldl (fun acc sub =>
      let membres := intFloatOr0 (sub.sere_nbre.getD (JVal.num 0))
      let valeur_part := floatOr0 (sub.valeur_epargne.getD (JVal.num 0))
      if membres ≤ 0 || valeur_part ≤ 0 then acc
      else acc + (membres : ℚ) * (8 / 10 : ℚ) * valeur_part * 36) (0 : ℚ)
    Except.ok [⟨ind.code, start, finish, round2 total, none, none,
      "Fiche de suivi des Sèrès Nafa"⟩]

/-- Model of `calc_PIP_017`: credit granted = total savings × 1.5, summed over
submissions with positive savings (no date filter). -/
def calc_PIP_017 (w : World) (ind : Indicator) (start finish : Int) :
    Except String (List SaveCall) :=
  let qs := w.submissions.filter (fun s => s.form_type == "FICHE_SUIVI_SERE_NAFA")
  if qs.isEmpty then
    Except.ok [⟨ind.code, start, finish, 0, none, none,
      "Fiche de suivi des Sèrès Nafa"⟩]
  else
    let total_credit := qs.foldl (fun acc sub =>
      let montant_epargne := floatOr0 (sub.montant_total_epargne.getD (JVal.num 0))
      if montant_epargne ≤ 0 then acc
      else acc + montant_epargne * (3 / 2 : ℚ)) (0 : ℚ)
    Except.ok [⟨ind.code, start, finish, round2 total_credit, none, none,
      "Fiche de suivi des Sèrès Nafa"⟩]

/-- Model of `calc_PIP_018`: % of members in groups with at least one running
credit (no date filter). -/
def calc_PIP_018 (w : World) (ind : Indicator) (start finish : Int) :
    Except String (List SaveCall) :=
  let qs := w.submissions.filter (fun s => s.form_type == "FICHE_SUIVI_SERE_NAFA")
  if qs.isEmpty then
    Except.ok [⟨ind.code, start, finish, 0, none, none,
      "Fiche de suivi des Sèrès Nafa"⟩]
  else
    let totals := qs.foldl (fun acc sub =>
      let membres := intFloatOr0 (sub.sere_nbre.getD (JVal.num 0))
      let nb_credits := intFloatOr0 (sub.nb_credit_en_cours.getD (JVal.num 0))
      if membres ≤ 0 then acc
      else (acc.1 + membres, if 0 < nb_credits then acc.2 + membres else acc.2))
      ((0 : ℤ), (0 : ℤ))
    let value := if totals.1 = 0 then 0
      else round2 (((totals.2 : ℚ) / (totals.1 : ℚ)) * 100)
    Except.ok [⟨ind.code, start, finish, value, none, none,
      "Fiche de suivi des Sèrès Nafa"⟩]

/-- Signature of a registered formula function. -/
abbrev FormulaFn := World → Indicator → Int → Int → Except String (List SaveCall)

/-- The `FORMULAS` registry dict of `indicators_services.py` (note the
unpadded `PIP_11` … `PIP_18` keys of the source). -/
def FORMULAS : List (String × FormulaFn) :=
  [("IRI_012", calc_IRI_012), ("ODP_002", calc_ODP_002),
   ("ODP_003", calc_ODP_003), ("ODP_004", calc_ODP_004),
   ("ODP_005", calc_ODP_005), ("ODP_006", calc_ODP_006),
   ("PIP_11", calc_PIP_011), ("PIP_13", calc_PIP_013),
   ("PIP_14", calc_PIP_014), ("PIP_15", calc_PIP_015),
   ("PIP_16", calc_PIP_016), ("PIP_17", calc_PIP_017),
   ("PIP_18", calc_PIP_018)]

/-- The world with no source rows at all. -/
def emptyWorld : World :=
  { indicators := [], tables := [], tickets := [], benefit_plans := [],
    beneficiaries := [], benefit_consumptions := [], submissions := [],
    now := 0 }

/-! ### Batch orchestrator (`calculate_me_indicators_for_period`) -/
/-- Running tally of one batch: succeeded count, collected
`"<code>: <message>"` error strings, and issued `_save_value` calls. -/
structure PassState where
  computed : ℕ
  errors : List String
  saves : List SaveCall
  deriving DecidableEq, Repr

/-- Model of `data_source__is_active=True` as a predicate on the indicator. -/
def dsActiveB (ind : Indicator) : Bool :=
  match ind.data_source with
  | some ds => ds.is_active
  | none => false

/-- Pass-1 queryset:
`filter` on is_active, method "AUTOMATIQUE" and an active data source. -/
def pass1Candidates (w : World) : List Indicator :=
  w.indicators.filter
    (fun i => i.is_active && i.method == "AUTOMATIQUE" && dsActiveB i)

/-- Pass-2 queryset:
`filter` on is_active, method "AUTOMATIQUE" and a non-null formula. -/
def pass2Candidates (w : World) : List Indicator :=
  w.indicators.filter
    (fun i => i.is_active && i.method == "AUTOMATIQUE" && i.formula.isSome)

/-- One pass-1 loop iteration: `try: compute_indicator_from_datasource;
computed += 1 except: errors.append(f"{ind.code}: {e}")`. -/
def descPassStep (w : World) (start finish : Int) (st : PassState)
    (ind : Indicator) : PassState :=
  match compute_indicator_from_datasource w.tables ind start finish with
  | Except.ok recs =>
    { st with computed := st.computed + 1, saves := st.saves ++ recs }
  | Except.error msg =>
    { st with errors := st.errors ++ [ind.code ++ ": " ++ msg] }

/-- One pass-2 loop iteration: `fn = FORMULAS.get(ind.formula); if fn:
fn(ind, start, end); computed += 1` under the same `try`/`except` —
an unregistered key falls through silently. -/
def formulaPassStep (w : World) (start finish : Int) (st : PassState)
    (ind : Indicator) : PassState :=
  match ind.formula with
  | none => st
  | some key =>
    match FORMULAS.lookup key with
    | none => st
    | some fn =>
      match fn w ind start finish with
      | Except.ok recs =>
        { st with computed := st.computed + 1, saves := st.saves ++ recs }
      | Except.error msg =>
        { st with errors := st.errors ++ [ind.code ++ ": " ++ msg] }

/-- The `MonitoringLog` row written at the end of a batch. -/
structure MonitoringLog where
  period_start : Int
  period_end : Int
  indicators_count : ℕ
  success : Bool
  error_details : Option String
  deriving DecidableEq, Repr

/-- Return value and side effects of one batch invocation. -/
structure BatchResult where
  computed : ℕ
  errors : List String
  saves : List SaveCall
  log : MonitoringLog
  deriving DecidableEq, Repr

/-- Model of `calculate_me_indicators_for_period(start, end, user)`: the
descriptor pass, then the formula pass, then one `MonitoringLog` row
with `success = (len(errors) == 0)` and newline-joined error details. -/
def calculate_me_indicators_for_period (w : World) (start finish : Int) :
    BatchResult :=
  let st1 := (pass1Candidates w).foldl (descPassStep w start finish)
    { computed := 0, errors := [], saves := [] }
  let st := (pass2Candidates w).foldl (formulaPassStep w start finish) st1
  { computed := st.computed, errors := st.errors, saves := st.saves,
    log := { period_start := start, period_end := finish,
             indicators_count := st.computed,
             success := st.errors.isEmpty,
             error_details := if st.errors.isEmpty then none
               else some (String.intercalate "\n" st.errors) } }

/-! ### The batch as a fold over its computation attempts -/
/-- The generic per-attempt transition shared by both loops. -/
def attemptStep (st : PassState) (a : String × Except String (List SaveCall)) :
    PassState :=
  match a.2 with
  | Except.ok recs =>
    { st with computed := st.computed + 1, saves := st.saves ++ recs }
  | Except.error msg =>
    { st with errors := st.errors ++ [a.1 ++ ": " ++ msg] }

/-- The computation a pass-2 candidate triggers, if any: `none` when the
formula key does not resolve in the registry (the indicator is skipped). -/
def formulaAttempt (w : World) (start finish : Int) (i : Indicator) :
    Option (String × Except String (List SaveCall)) :=
  match i.formula with
  | none => none
  | some key => (FORMULAS.lookup key).map (fun fn => (i.code, fn w i start finish))

/-- The computations a batch actually runs, in order: every pass-1
candidate, then every pass-2 candidate whose formula key resolves in the
registry (unresolvable keys produce no attempt — they are skipped). -/
def attemptsOf (w : World) (start finish : Int) :
    List (String × Except String (List SaveCall)) :=
  (pass1Candidates w).map
    (fun i => (i.code, compute_indicator_from_datasource w.tables i start finish))
  ++ (pass2Candidates w).filterMap (formulaAttempt w start finish)

/-- Concrete descriptor: COUNT over an empty registered table. -/
def dsCountW : DataSourceDescriptor :=
  { is_active := true, module := "m", model := "T", date_field := "d",
    aggregation := "COUNT", value_field := "v", distinct_field := "id",
    filters := [], numerator_filters := none, denominator_filters := none }

/-- Concrete descriptor with an unknown aggregation kind. -/
def dsBadAggW : DataSourceDescriptor :=
  { dsCountW with aggregation := "FOO" }

/-- Two-indicator world: `A` computes fine, `B` faults on its unknown
aggregation kind. -/
def worldC1 : World :=
  { indicators :=
      [{ code := "A", is_active := true, method := "AUTOMATIQUE",
         formula := none, data_source := some dsCountW },
       { code := "B", is_active := true, method := "AUTOMATIQUE",
         formula := none, data_source := some dsBadAggW }],
    tables := [(("m", "T"), [])], tickets := [], benefit_plans := [],
    beneficiaries := [], benefit_consumptions := [], submissions := [],
    now := 0 }

/-- One-indicator world whose indicator qualifies for both passes: an
active COUNT descriptor and the registered formula key `PIP_13`. -/
def worldC2 : World :=
  { indicators :=
      [{ code := "D", is_active := true, method := "AUTOMATIQUE",
         formula := some "PIP_13", data_source := some dsCountW }],
    tables := [(("m", "T"), [])], tickets := [], benefit_plans := [],
    beneficiaries := [], benefit_consumptions := [], submissions := [],
    now := 0 }

/-- One-indicator world: active automatic indicator with no descriptor
and a formula key absent from the registry. -/
def worldC3 : World :=
  { indicators :=
      [{ code := "X", is_active := true, method := "AUTOMATIQUE",
         formula := some "NOPE", data_source := none }],
    tables := [], tickets := [], benefit_plans := [], beneficiaries := [],
    benefit_consumptions := [], submissions := [], now := 0 }

/-- One-indicator world with an active SUM descriptor over a one-row
table. -/
def worldC4 : World :=
  { indicators :=
      [{ code := "S", is_active := true, method := "AUTOMATIQUE",
         formula := none,
         data_source := some
           { is_active := true, module := "m", model := "T",
             date_field := "d", aggregation := "SUM", value_field := "amt",
             distinct_field := "id", filters := [],
             numerator_filters := none, denominator_filters := none } }],
    tables := [(("m", "T"),
      [{ date := 5, fields := [], numfields := [("amt", 7)] }])],
    tickets := [], benefit_plans := [], beneficiaries := [],
    benefit_consumptions := [], submissions := [], now := 0 }

/-- One Sèrè-Nafa follow-up submission (10 members, 500 saved). -/
def worldC10 : World :=
  { indicators := [], tables := [], tickets := [], benefit_plans := [],
    beneficiaries := [], benefit_consumptions := [],
    submissions :=
      [{ form_type := "FICHE_SUIVI_SERE_NAFA", submitted_at := none,
         code_menage := none, sere_nbre := some (JVal.num 10),
         montant_total_epargne := some (JVal.num 500), valeur_epargne := none,
         nb_credit_en_cours := none, reglement_oui := true,
         nbre_homme := 1 }],
    now := 0 }

/-! ### Theorems -/

theorem ivKeyMatch_updatedIVRow (r : IVRow) (v : ℚ) (src : String)
    (indicator : String) (start finish : Int) (region gender : Option String) :
    ivKeyMatch (updatedIVRow r v src) indicator start finish region gender =
      ivKeyMatch r indicator start finish region gender := by
  simp [ivKeyMatch, updatedIVRow]

theorem find?_pred {α : Type} (p : α → Bool) (l : List α) (a : α)
    (h : l.find? p = some a) : p a = true :=
  List.find?_some h

theorem find?_map_of_pred_inv {α : Type} (f : α → α) (q : α → Bool)
    (h : ∀ x, q (f x) = q x) (l : List α) :
    (l.map f).find? q = (l.find? q).map f := by
  induction l with
  | nil => rfl
  | cons a t ih =>
    by_cases hq : q a = true
    · simp [List.find?_cons, h a, hq]
    · simp only [Bool.not_eq_true] at hq
      simp [List.find?_cons, h a, hq, ih]

theorem save_value_second_call (store : List IVRow) (indicator : String)
    (start finish : Int) (v : ℚ) (region gender : Option String)
    (src : String) :
    save_value (save_value store indicator start finish v region gender src).2
        indicator start finish v region gender src =
      (SaveAction.noop,
        (save_value store indicator start finish v region gender src).2) := by
  cases hfind : findIndicatorValue store indicator start finish region gender with
  | none =>
    have hfind2 :
        findIndicatorValue
          (store ++ [{ indicator := indicator, period_start := start,
                       period_end := finish, region_code := region,
                       gender := gender, value := some v,
                       qualitative_value := none, source := some src,
                       validated := true }]) indicator start finish region gender =
        some { indicator := indicator, period_start := start,
               period_end := finish, region_code := region,
               gender := gender, value := some v,
               qualitative_value := none, source := some src,
               validated := true } := by
      unfold findIndicatorValue at hfind ⊢
      rw [List.find?_append, hfind]
      simp [ivKeyMatch]
    simp [save_value, hfind, hfind2]
  | some r =>
    by_cases hchange :
        (r.value != some v || r.source != some src || !r.validated) = true
    · have hinv : ∀ x : IVRow,
          ivKeyMatch
            (if ivKeyMatch x indicator start finish region gender then
              updatedIVRow x v src
            else x) indicator start finish region gender =
          ivKeyMatch x indicator start finish region gender := by
        intro x
        by_cases hx : ivKeyMatch x indicator start finish region gender = true
        · simp [hx, ivKeyMatch_updatedIVRow]
        · simp only [Bool.not_eq_true] at hx
          simp [hx]
      have hfind2 :
          findIndicatorValue
            (store.map (fun x =>
              if ivKeyMatch x indicator start finish region gender then
                updatedIVRow x v src
              else x)) indicator start finish region gender =
          some (updatedIVRow r v src) := by
        unfold findIndicatorValue at hfind ⊢
        rw [find?_map_of_pred_inv _ _ hinv, hfind]
        have hr : ivKeyMatch r indicator start finish region gender = true :=
          find?_pred (fun x => ivKeyMatch x indicator start finish region gender)
            store r hfind
        simp [hr]
      have h1 : save_value store indicator start finish v region gender src =
          (SaveAction.updated,
            store.map (fun x =>
              if ivKeyMatch x indicator start finish region gender then
                updatedIVRow x v src
              else x)) := by
        simp only [save_value, hfind]
        rw [if_pos hchange]
      rw [h1]
      simp only [save_value, hfind2]
      simp [updatedIVRow]
    · simp only [Bool.not_eq_true] at hchange
      simp [save_value, hfind, hchange]

/-- C5: `_save_value` is an idempotent upsert on the key
(indicator, period_start, period_end, region_code, gender): absent key
creates a row with `validated = true`; present key writes only when at
least one of `value`, `source`, `validated` differs from the incoming
state; a second call with identical arguments and unchanged stored row
performs no write. -/
theorem save_value_idempotent_upsert (store : List IVRow) (indicator : String)
    (start finish : Int) (v : ℚ) (region gender : Option String)
    (src : String) :
    (findIndicatorValue store indicator start finish region gender = none →
      save_value store indicator start finish v region gender src =
        (SaveAction.created,
          store ++ [{ indicator := indicator, period_start := start,
                      period_end := finish, region_code := region,
                      gender := gender, value := some v,
                      qualitative_value := none, source := some src,
                      validated := true }])) ∧
    (∀ r, findIndicatorValue store indicator start finish region gender = some r →
      ((save_value store indicator start finish v region gender src).1 =
          SaveAction.noop ↔
        (r.value = some v ∧ r.source = some src ∧ r.validated = true))) ∧
    save_value (save_value store indicator start finish v region gender src).2
        indicator start finish v region gender src =
      (SaveAction.noop,
        (save_value store indicator start finish v region gender src).2) := by
  refine ⟨?_, ?_, save_value_second_call store indicator start finish v region gender src⟩
  · intro h
    simp [save_value, h]
  · intro r hr
    have heval : (save_value store indicator start finish v region gender src).1 =
        if r.value != some v || r.source != some src || !r.validated then
          SaveAction.updated
        else SaveAction.noop := by
      simp only [save_value, hr]
      rw [apply_ite Prod.fst]
    rw [heval]
    have hiff : ((r.value != some v || r.source != some src || !r.validated) = false) ↔
        (r.value = some v ∧ r.source = some src ∧ r.validated = true) := by
      simp [and_assoc]
    by_cases hc : (r.value != some v || r.source != some src || !r.validated) = true
    · rw [if_pos hc]
      have hnot : ¬ (r.value = some v ∧ r.source = some src ∧ r.validated = true) := by
        rw [← hiff, hc]
        simp
      constructor
      · intro habs
        exact absurd habs (by decide)
      · intro hconj
        exact absurd hconj hnot
    · rw [if_neg hc]
      simp only [Bool.not_eq_true] at hc
      rw [hiff] at hc
      simp [hc]

/-- Witness for C5 at a concrete input: creating then re-saving the same
value is a no-op. -/
theorem save_value_idempotent_upsert_witness :
    save_value ([] : List IVRow) "ODP_002" 0 30 (2 : ℚ) none none "SYSTEM" =
      (SaveAction.created,
        [{ indicator := "ODP_002", period_start := 0, period_end := 30,
           region_code := none, gender := none, value := some 2,
           qualitative_value := none, source := some "SYSTEM",
           validated := true }]) ∧
    save_value
        [({ indicator := "ODP_002", period_start := 0, period_end := 30,
            region_code := none, gender := none, value := some 2,
            qualitative_value := none, source := some "SYSTEM",
            validated := true } : IVRow)] "ODP_002" 0 30 (2 : ℚ) none none
        "SYSTEM" =
      (SaveAction.noop,
        [{ indicator := "ODP_002", period_start := 0, period_end := 30,
           region_code := none, gender := none, value := some 2,
           qualitative_value := none, source := some "SYSTEM",
           validated := true }]) := by
  have h := save_value_idempotent_upsert [] "ODP_002" 0 30 2 none none "SYSTEM"
  have h1 := h.1 rfl
  refine ⟨h1, ?_⟩
  have h3 := h.2.2
  rw [h1] at h3
  simpa using h3

theorem serviceCreate_error_of_value_errors (store : List IVRow) (inp : IVInput)
    (h : validate_value_fields inp.value inp.qualitative_value ≠ []) :
    ∃ errs, errs ≠ [] ∧
      indicatorValueServiceCreate store inp = Except.error errs := by
  refine ⟨indicatorValueValidationCreate store inp, ?_, ?_⟩
  · unfold indicatorValueValidationCreate
    intro habs
    rcases List.append_eq_nil.mp habs with ⟨-, h2⟩
    exact h h2
  · unfold indicatorValueServiceCreate
    have hne : indicatorValueValidationCreate store inp ≠ [] := by
      unfold indicatorValueValidationCreate
      intro habs
      rcases List.append_eq_nil.mp habs with ⟨-, h2⟩
      exact h h2
    simp only [List.isEmpty_iff]
    rw [if_neg hne]

/-- C9: manual `IndicatorValue` submission: providing both `value` and a
(truthy) `qualitative_value` is rejected, providing neither is rejected
(both with no persisted write), and providing exactly one passes the
value-field rule. -/
theorem manual_value_mutual_exclusivity (store : List IVRow) (inp : IVInput) :
    (inp.value.isSome = true → truthyStr inp.qualitative_value = true →
      validate_value_fields inp.value inp.qualitative_value ≠ [] ∧
      ∃ errs, errs ≠ [] ∧
        indicatorValueServiceCreate store inp = Except.error errs) ∧
    (inp.value = none → truthyStr inp.qualitative_value = false →
      validate_value_fields inp.value inp.qualitative_value ≠ [] ∧
      ∃ errs, errs ≠ [] ∧
        indicatorValueServiceCreate store inp = Except.error errs) ∧
    (inp.value.isSome = true → truthyStr inp.qualitative_value = false →
      validate_value_fields inp.value inp.qualitative_value = []) ∧
    (inp.value = none → truthyStr inp.qualitative_value = true →
      validate_value_fields inp.value inp.qualitative_value = []) := by
  refine ⟨?_, ?_, ?_, ?_⟩
  · intro h1 h2
    cases hv : inp.value with
    | none =>
      rw [hv] at h1
      exact absurd h1 (by decide)
    | some q =>
      have hvf : validate_value_fields (some q) inp.qualitative_value ≠ [] := by
        simp [validate_value_fields, h2]
      exact ⟨hvf, serviceCreate_error_of_value_errors store inp
        (by rw [hv]; exact hvf)⟩
  · intro h1 h2
    have hvf : validate_value_fields inp.value inp.qualitative_value ≠ [] := by
      simp [validate_value_fields, h1, h2]
    exact ⟨hvf, serviceCreate_error_of_value_errors store inp hvf⟩
  · intro h1 h2
    cases hv : inp.value with
    | none =>
      rw [hv] at h1
      exact absurd h1 (by decide)
    | some q =>
      simp [validate_value_fields, hv, h2]
  · intro h1 h2
    simp [validate_value_fields, h1, h2]

/-- Witness for C9: both provided is rejected with no write, a lone
numeric value passes the value-field rule. -/
theorem manual_value_mutual_exclusivity_witness :
    (∃ errs, errs ≠ [] ∧
      indicatorValueServiceCreate []
        { indicator_id := some "IND1", period_start := some 0,
          period_end := some 30, region_code := none, gender := none,
          value := some 5, qualitative_value := some "Bon",
          source := none, validated := false } = Except.error errs) ∧
    validate_value_fields (some 5) none = [] := by
  have h1 := manual_value_mutual_exclusivity []
    { indicator_id := some "IND1", period_start := some 0,
      period_end := some 30, region_code := none, gender := none,
      value := some 5, qualitative_value := some "Bon",
      source := none, validated := false }
  have h2 := manual_value_mutual_exclusivity []
    { indicator_id := some "IND1", period_start := some 0,
      period_end := some 30, region_code := none, gender := none,
      value := some 5, qualitative_value := none,
      source := none, validated := false }
  exact ⟨(h1.1 rfl rfl).2, h2.2.2.1 rfl rfl⟩

theorem safe_percent_eq_claim_form (num den : ℕ) :
    safe_percent num den =
      if den = 0 then 0 else round2 (100 * (num : ℚ) / (den : ℚ)) := by
  unfold safe_percent
  by_cases h : den = 0
  · simp [h]
  · rw [if_pos h, if_neg h]
    congr 1
    ring

theorem pyOrZero_sumAggregate (vf : String) (qs : List DRow) :
    pyOrZero (sumAggregate vf qs) =
      (qs.map (fun r => (r.numfields.lookup vf).getD 0)).sum := by
  unfold sumAggregate pyOrZero
  by_cases h : qs.isEmpty
  · rw [if_pos h]
    rw [List.isEmpty_iff] at h
    simp [h]
  · rw [if_neg h]
    by_cases h0 : (qs.map (fun r => (r.numfields.lookup vf).getD 0)).sum = 0
    · simp [h0]
    · simp [h0]

/-- C6: a PERCENT descriptor evaluates to
`round(100 * numerator/denominator, 2)` over the distinct counts of
`distinct_field` under the numerator/denominator filter sets, and to
exactly `0` when the denominator is `0` — never a divide-by-zero fault. -/
theorem percent_descriptor_zero_safe
    (tables : List ((String × String) × List DRow)) (ind : Indicator)
    (start finish : Int) (ds : DataSourceDescriptor) (rows : List DRow)
    (h1 : ind.data_source = some ds) (h2 : ds.is_active = true)
    (h3 : ds.aggregation = "PERCENT")
    (h4 : tables.lookup (ds.module, ds.model) = some rows) :
    compute_indicator_from_datasource tables ind start finish =
      Except.ok [⟨ind.code, start, finish,
        (if distinctCountUnder ds rows start finish
              (ds.denominator_filters.getD []) = 0 then 0
         else round2 (100 *
           (distinctCountUnder ds rows start finish
             (ds.numerator_filters.getD []) : ℚ) /
           (distinctCountUnder ds rows start finish
             (ds.denominator_filters.getD []) : ℚ))),
        none, none, "SYSTEM"⟩] := by
  rw [← safe_percent_eq_claim_form]
  unfold compute_indicator_from_datasource
  rw [h1]
  dsimp only
  rw [h2, h3, h4]
  simp

/-- Witness for C6 at a concrete input: one row, denominator filter
matches nothing, result is `0` rather than a fault. -/
theorem percent_descriptor_zero_safe_witness :
    compute_indicator_from_datasource
      [(("m", "T"),
        [{ date := 5, fields := [("id", 1), ("flag", 0)], numfields := [] }])]
      { code := "P1", is_active := true, method := "AUTOMATIQUE",
        formula := none,
        data_source := some
          { is_active := true, module := "m", model := "T",
            date_field := "d", aggregation := "PERCENT", value_field := "v",
            distinct_field := "id", filters := [],
            numerator_filters := none,
            denominator_filters := some [("flag", 1)] } } 0 10 =
      Except.ok [⟨"P1", 0, 10, 0, none, none, "SYSTEM"⟩] := by
  have h := percent_descriptor_zero_safe
    [(("m", "T"),
      [{ date := 5, fields := [("id", 1), ("flag", 0)], numfields := [] }])]
    { code := "P1", is_active := true, method := "AUTOMATIQUE",
      formula := none,
      data_source := some
        { is_active := true, module := "m", model := "T",
          date_field := "d", aggregation := "PERCENT", value_field := "v",
          distinct_field := "id", filters := [],
          numerator_filters := none,
          denominator_filters := some [("flag", 1)] } } 0 10
    { is_active := true, module := "m", model := "T",
      date_field := "d", aggregation := "PERCENT", value_field := "v",
      distinct_field := "id", filters := [],
      numerator_filters := none,
      denominator_filters := some [("flag", 1)] }
    [{ date := 5, fields := [("id", 1), ("flag", 0)], numfields := [] }]
    rfl rfl rfl rfl
  rw [h]
  rfl

theorem compute_sum_value
    (tables : List ((String × String) × List DRow)) (ind : Indicator)
    (start finish : Int) (ds : DataSourceDescriptor) (rows : List DRow)
    (h1 : ind.data_source = some ds) (h2 : ds.is_active = true)
    (h3 : ds.aggregation = "SUM")
    (h4 : tables.lookup (ds.module, ds.model) = some rows) :
    compute_indicator_from_datasource tables ind start finish =
      Except.ok [⟨ind.code, start, finish,
        ((dsFilteredRows ds rows start finish).map
          (fun r => (r.numfields.lookup ds.value_field).getD 0)).sum,
        none, none, "SYSTEM"⟩] := by
  rw [← pyOrZero_sumAggregate ds.value_field (dsFilteredRows ds rows start finish)]
  unfold compute_indicator_from_datasource
  rw [h1]
  dsimp only
  rw [h2, h3, h4]
  simp

/-- C8: a SUM descriptor evaluates to the sum of `value_field` over the
filtered rows, in particular to `0` (not null, not an error) when no
row matches. -/
theorem sum_descriptor_empty_zero
    (tables : List ((String × String) × List DRow)) (ind : Indicator)
    (start finish : Int) (ds : DataSourceDescriptor) (rows : List DRow)
    (h1 : ind.data_source = some ds) (h2 : ds.is_active = true)
    (h3 : ds.aggregation = "SUM")
    (h4 : tables.lookup (ds.module, ds.model) = some rows) :
    compute_indicator_from_datasource tables ind start finish =
      Except.ok [⟨ind.code, start, finish,
        ((dsFilteredRows ds rows start finish).map
          (fun r => (r.numfields.lookup ds.value_field).getD 0)).sum,
        none, none, "SYSTEM"⟩] ∧
    (dsFilteredRows ds rows start finish = [] →
      compute_indicator_from_datasource tables ind start finish =
        Except.ok [⟨ind.code, start, finish, 0, none, none, "SYSTEM"⟩]) := by
  have hmain := compute_sum_value tables ind start finish ds rows h1 h2 h3 h4
  refine ⟨hmain, ?_⟩
  intro hempty
  rw [hmain, hempty]
  simp

/-- Witness for C8 at a concrete input: no row in the date range, stored
value is `0`. -/
theorem sum_descriptor_empty_zero_witness :
    compute_indicator_from_datasource
      [(("m", "T"), [{ date := 50, fields := [], numfields := [("amt", 7)] }])]
      { code := "S1", is_active := true, method := "AUTOMATIQUE",
        formula := none,
        data_source := some
          { is_active := true, module := "m", model := "T",
            date_field := "d", aggregation := "SUM", value_field := "amt",
            distinct_field := "id", filters := [],
            numerator_filters := none, denominator_filters := none } } 0 10 =
      Except.ok [⟨"S1", 0, 10, 0, none, none, "SYSTEM"⟩] := by
  have h := sum_descriptor_empty_zero
    [(("m", "T"), [{ date := 50, fields := [], numfields := [("amt", 7)] }])]
    { code := "S1", is_active := true, method := "AUTOMATIQUE",
      formula := none,
      data_source := some
        { is_active := true, module := "m", model := "T",
          date_field := "d", aggregation := "SUM", value_field := "amt",
          distinct_field := "id", filters := [],
          numerator_filters := none, denominator_filters := none } } 0 10
    { is_active := true, module := "m", model := "T",
      date_field := "d", aggregation := "SUM", value_field := "amt",
      distinct_field := "id", filters := [],
      numerator_filters := none, denominator_filters := none }
    [{ date := 50, fields := [], numfields := [("amt", 7)] }]
    rfl rfl rfl rfl
  exact h.2 (by norm_num [dsFilteredRows, rowInRange])

theorem foldl_descPass_eq_attempts (w : World) (start finish : Int) :
    ∀ (l : List Indicator) (st : PassState),
      l.foldl (descPassStep w start finish) st =
        (l.map (fun i =>
          (i.code, compute_indicator_from_datasource w.tables i start finish))).foldl
          attemptStep st := by
  intro l
  induction l with
  | nil => intro st; rfl
  | cons a t ih =>
    intro st
    rw [List.foldl_cons, List.map_cons, List.foldl_cons, ih]
    congr 1

theorem formulaPassStep_eq (w : World) (start finish : Int) (st : PassState)
    (i : Indicator) :
    formulaPassStep w start finish st i =
      match formulaAttempt w start finish i with
      | none => st
      | some a => attemptStep st a := by
  cases hf : i.formula with
  | none =>
    simp only [formulaPassStep, formulaAttempt, hf]
  | some key =>
    cases hl : FORMULAS.lookup key with
    | none =>
      simp only [formulaPassStep, formulaAttempt, hf, hl, Option.map_none']
    | some fn =>
      simp only [formulaPassStep, formulaAttempt, attemptStep, hf, hl,
        Option.map_some']

theorem foldl_formulaPass_eq_attempts (w : World) (start finish : Int) :
    ∀ (l : List Indicator) (st : PassState),
      l.foldl (formulaPassStep w start finish) st =
        (l.filterMap (formulaAttempt w start finish)).foldl attemptStep st := by
  intro l
  induction l with
  | nil => intro st; rfl
  | cons a t ih =>
    intro st
    rw [List.foldl_cons, ih, formulaPassStep_eq, List.filterMap_cons]
    cases hfa : formulaAttempt w start finish a with
    | none => simp only [hfa]
    | some x => simp only [hfa, List.foldl_cons]

theorem batch_state_eq_attempts (w : World) (start finish : Int) :
    (pass2Candidates w).foldl (formulaPassStep w start finish)
      ((pass1Candidates w).foldl (descPassStep w start finish)
        { computed := 0, errors := [], saves := [] }) =
    (attemptsOf w start finish).foldl attemptStep
      { computed := 0, errors := [], saves := [] } := by
  rw [foldl_descPass_eq_attempts, foldl_formulaPass_eq_attempts]
  unfold attemptsOf
  rw [List.foldl_append]

theorem foldl_attemptStep_all_ok :
    ∀ (l : List (String × Except String (List SaveCall))),
      (∀ a ∈ l, ∃ r, a.2 = Except.ok r) →
      ∀ st : PassState,
        (l.foldl attemptStep st).computed = st.computed + l.length ∧
        (l.foldl attemptStep st).errors = st.errors := by
  intro l
  induction l with
  | nil => intro _ st; exact ⟨rfl, rfl⟩
  | cons a t ih =>
    intro h st
    obtain ⟨r, hr⟩ := h a (List.mem_cons_self a t)
    have ht := ih (fun b hb => h b (List.mem_cons_of_mem a hb))
    simp only [List.foldl_cons, List.length_cons]
    have hstep : attemptStep st a =
        { st with computed := st.computed + 1, saves := st.saves ++ r } := by
      unfold attemptStep
      rw [hr]
    rw [hstep]
    obtain ⟨h1, h2⟩ := ht { st with computed := st.computed + 1, saves := st.saves ++ r }
    refine ⟨?_, h2⟩
    rw [h1]
    dsimp only
    omega

theorem batch_result_shape (w : World) (start finish : Int) :
    calculate_me_indicators_for_period w start finish =
      { computed := ((attemptsOf w start finish).foldl attemptStep
          { computed := 0, errors := [], saves := [] }).computed,
        errors := ((attemptsOf w start finish).foldl attemptStep
          { computed := 0, errors := [], saves := [] }).errors,
        saves := ((attemptsOf w start finish).foldl attemptStep
          { computed := 0, errors := [], saves := [] }).saves,
        log := { period_start := start, period_end := finish,
                 indicators_count := ((attemptsOf w start finish).foldl attemptStep
                   { computed := 0, errors := [], saves := [] }).computed,
                 success := ((attemptsOf w start finish).foldl attemptStep
                   { computed := 0, errors := [], saves := [] }).errors.isEmpty,
                 error_details :=
                   if ((attemptsOf w start finish).foldl attemptStep
                     { computed := 0, errors := [], saves := [] }).errors.isEmpty
                   then none
                   else some (String.intercalate "\n"
                     ((attemptsOf w start finish).foldl attemptStep
                       { computed := 0, errors := [], saves := [] }).errors) } } := by
  unfold calculate_me_indicators_for_period
  dsimp only
  rw [batch_state_eq_attempts]

/-- C1: when exactly one of the computations a batch runs raises and all
the others succeed, the batch returns (and logs) `N - 1` succeeded
indicators over its `N` attempted computations, the single
`MonitoringLog` row has `success = false`, and `error_details` is
exactly the one `"<code>: <message>"` entry — the fault never aborts the
remaining batch. -/
theorem batch_single_fault_isolation (w : World) (start finish : Int)
    (pre post : List (String × Except String (List SaveCall))) (c m : String)
    (hsplit : attemptsOf w start finish = pre ++ (c, Except.error m) :: post)
    (hpre : ∀ a ∈ pre, ∃ r, a.2 = Except.ok r)
    (hpost : ∀ a ∈ post, ∃ r, a.2 = Except.ok r) :
    (calculate_me_indicators_for_period w start finish).computed =
      (attemptsOf w start finish).length - 1 ∧
    (calculate_me_indicators_for_period w start finish).errors =
      [c ++ ": " ++ m] ∧
    (calculate_me_indicators_for_period w start finish).log.success = false ∧
    (calculate_me_indicators_for_period w start finish).log.indicators_count =
      (attemptsOf w start finish).length - 1 ∧
    (calculate_me_indicators_for_period w start finish).log.error_details =
      some (c ++ ": " ++ m) := by
  have key :
      ((attemptsOf w start finish).foldl attemptStep
        { computed := 0, errors := [], saves := [] }).computed =
          pre.length + post.length ∧
      ((attemptsOf w start finish).foldl attemptStep
        { computed := 0, errors := [], saves := [] }).errors =
          [c ++ ": " ++ m] := by
    rw [hsplit, List.foldl_append, List.foldl_cons]
    obtain ⟨h1c, h1e⟩ := foldl_attemptStep_all_ok pre hpre
      { computed := 0, errors := [], saves := [] }
    obtain ⟨h3c, h3e⟩ := foldl_attemptStep_all_ok post hpost
      (attemptStep (pre.foldl attemptStep
        { computed := 0, errors := [], saves := [] }) (c, Except.error m))
    constructor
    · rw [h3c]
      have hmid : (attemptStep (pre.foldl attemptStep
          { computed := 0, errors := [], saves := [] })
            (c, Except.error m)).computed =
          (pre.foldl attemptStep
            { computed := 0, errors := [], saves := [] }).computed := rfl
      rw [hmid, h1c]
      dsimp only
      omega
    · rw [h3e]
      have hmid : (attemptStep (pre.foldl attemptStep
          { computed := 0, errors := [], saves := [] })
            (c, Except.error m)).errors =
          (pre.foldl attemptStep
            { computed := 0, errors := [], saves := [] }).errors ++
            [c ++ ": " ++ m] := rfl
      rw [hmid, h1e]
      rfl
  have hlen : (attemptsOf w start finish).length - 1 =
      pre.length + post.length := by
    rw [hsplit]
    simp
  rw [batch_result_shape, hlen]
  rw [key.1, key.2]
  refine ⟨rfl, rfl, rfl, rfl, rfl⟩

/-- Witness for C1: two candidates, one faults, the batch returns 1 with
a failed log carrying exactly the faulting entry. -/
theorem batch_single_fault_isolation_witness :
    (calculate_me_indicators_for_period worldC1 0 10).computed = 1 ∧
    (calculate_me_indicators_for_period worldC1 0 10).log.success = false ∧
    (calculate_me_indicators_for_period worldC1 0 10).log.error_details =
      some "B: Aggregation inconnue: FOO" := by
  have h := batch_single_fault_isolation worldC1 0 10
    [("A", Except.ok [⟨"A", 0, 10, ((0 : ℕ) : ℚ), none, none, "SYSTEM"⟩])] []
    "B" "Aggregation inconnue: FOO"
    rfl
    (by
      intro a ha
      rw [List.mem_singleton] at ha
      subst ha
      exact ⟨_, rfl⟩)
    (by
      intro a ha
      exact absurd ha (List.not_mem_nil a))
  refine ⟨?_, h.2.2.1, h.2.2.2.2⟩
  rw [h.1]
  rfl

/-- C2 (evaluation of the divergence): a single indicator qualifying for
both orchestrator passes is computed in each pass and counted twice —
the returned count and `MonitoringLog.indicators_count` are `2` for a
one-indicator world, and two `_save_value` calls are issued for it. -/
theorem batch_double_counts_indicator_in_both_passes :
    worldC2.indicators.length = 1 ∧
    (calculate_me_indicators_for_period worldC2 0 10).computed = 2 ∧
    (calculate_me_indicators_for_period worldC2 0 10).log.indicators_count = 2 ∧
    ((calculate_me_indicators_for_period worldC2 0 10).saves.map
      SaveCall.indicator) = ["D", "D"] := by
  refine ⟨rfl, rfl, rfl, rfl⟩

/-- C3 counterexample: an active automatic indicator with neither a
resolvable formula key nor a descriptor yields a batch with no error
entry, no count and a successful log — it is silently skipped, contrary
to the claimed explicit failure. -/
theorem unresolved_path_silently_skipped_cex :
    (calculate_me_indicators_for_period worldC3 0 10).errors = [] ∧
    (calculate_me_indicators_for_period worldC3 0 10).computed = 0 ∧
    (calculate_me_indicators_for_period worldC3 0 10).log.success = true ∧
    (calculate_me_indicators_for_period worldC3 0 10).saves = [] := by
  refine ⟨rfl, rfl, rfl, rfl⟩

/-- C3 amended: an indicator with no active descriptor and no
registry-resolvable formula key is silently skipped: it never enters the
descriptor pass, it generates no computation attempt (hence neither an
error entry nor a count), and the formula-pass iteration over it is the
identity. -/
theorem unresolved_path_silently_skipped (w : World) (ind : Indicator)
    (start finish : Int) (hds : dsActiveB ind = false)
    (hform : ∀ key, ind.formula = some key → FORMULAS.lookup key = none) :
    ind ∉ pass1Candidates w ∧
    formulaAttempt w start finish ind = none ∧
    (∀ st, formulaPassStep w start finish st ind = st) := by
  refine ⟨?_, ?_, ?_⟩
  · intro hmem
    have := (List.mem_filter.mp hmem).2
    rw [hds] at this
    simp at this
  · unfold formulaAttempt
    cases hf : ind.formula with
    | none => rfl
    | some key =>
      dsimp only
      rw [hform key hf]
      rfl
  · intro st
    cases hf : ind.formula with
    | none => simp only [formulaPassStep, hf]
    | some key =>
      simp only [formulaPassStep, hf, hform key hf]

/-- Witness for the amended statement of C3 at the concrete skipped
indicator of `worldC3`. -/
theorem unresolved_path_silently_skipped_witness :
    ({ code := "X", is_active := true, method := "AUTOMATIQUE",
       formula := some "NOPE", data_source := none } : Indicator) ∉
      pass1Candidates worldC3 ∧
    formulaAttempt worldC3 0 10
      { code := "X", is_active := true, method := "AUTOMATIQUE",
        formula := some "NOPE", data_source := none } = none := by
  have h := unresolved_path_silently_skipped worldC3
    { code := "X", is_active := true, method := "AUTOMATIQUE",
      formula := some "NOPE", data_source := none } 0 10 rfl
    (by
      intro key hkey
      cases hkey
      rfl)
  exact ⟨h.1, h.2.1⟩

/-- C4 counterexample: invoked with `period_start = 10 > period_end = 0`
the batch entry point does not fail — it computes the indicator over the
empty date range and issues an `IndicatorValue` write, contradicting
both "no indicator is computed" and "no IndicatorValue is written". -/
theorem batch_accepts_inverted_period_cex :
    (calculate_me_indicators_for_period worldC4 10 0).computed = 1 ∧
    (calculate_me_indicators_for_period worldC4 10 0).saves =
      [⟨"S", 10, 0, 0, none, none, "SYSTEM"⟩] ∧
    (calculate_me_indicators_for_period worldC4 10 0).log.success = true := by
  refine ⟨rfl, rfl, rfl⟩

/-- C4 amended: the batch entry point performs no period-order
validation: with `period_start > period_end` it still runs to
completion, logging the inverted period; the date-range filter then
matches no row, so an active SUM descriptor stores `0`. -/
theorem batch_runs_without_period_validation (w : World) (start finish : Int)
    (h : finish < start) :
    (calculate_me_indicators_for_period w start finish).log.period_start =
      start ∧
    (calculate_me_indicators_for_period w start finish).log.period_end =
      finish ∧
    (∀ r : DRow, rowInRange start finish r = false) ∧
    (∀ (ind : Indicator) (ds : DataSourceDescriptor) (rows : List DRow),
      ind.data_source = some ds → ds.is_active = true →
      ds.aggregation = "SUM" →
      w.tables.lookup (ds.module, ds.model) = some rows →
      compute_indicator_from_datasource w.tables ind start finish =
        Except.ok [⟨ind.code, start, finish, 0, none, none, "SYSTEM"⟩]) := by
  have hrange : ∀ r : DRow, rowInRange start finish r = false := by
    intro r
    simp only [rowInRange, Bool.and_eq_false_imp, decide_eq_true_eq,
      decide_eq_false_iff_not]
    intro h1
    omega
  refine ⟨rfl, rfl, hrange, ?_⟩
  intro ind ds rows h1 h2 h3 h4
  have hempty : dsFilteredRows ds rows start finish = [] := by
    unfold dsFilteredRows
    have h0 : rows.filter (rowInRange start finish) = [] := by
      rw [List.filter_eq_nil_iff]
      intro r _
      rw [hrange r]
      simp
    rw [h0]
    cases ds.filters.isEmpty <;> simp
  have := compute_sum_value w.tables ind start finish ds rows h1 h2 h3 h4
  rw [this, hempty]
  simp

/-- Witness for the amended statement of C4: the inverted-period run on
`worldC4` logs the inverted period and stores `0` for the SUM
descriptor. -/
theorem batch_runs_without_period_validation_witness :
    (calculate_me_indicators_for_period worldC4 10 0).log.period_start = 10 ∧
    (calculate_me_indicators_for_period worldC4 10 0).log.period_end = 0 ∧
    compute_indicator_from_datasource worldC4.tables
      { code := "S", is_active := true, method := "AUTOMATIQUE",
        formula := none,
        data_source := some
          { is_active := true, module := "m", model := "T",
            date_field := "d", aggregation := "SUM", value_field := "amt",
            distinct_field := "id", filters := [],
            numerator_filters := none, denominator_filters := none } } 10 0 =
      Except.ok [⟨"S", 10, 0, 0, none, none, "SYSTEM"⟩] := by
  have h := batch_runs_without_period_validation worldC4 10 0 (by norm_num)
  refine ⟨h.1, h.2.1, ?_⟩
  exact h.2.2.2
    { code := "S", is_active := true, method := "AUTOMATIQUE",
      formula := none,
      data_source := some
        { is_active := true, module := "m", model := "T",
          date_field := "d", aggregation := "SUM", value_field := "amt",
          distinct_field := "id", filters := [],
          numerator_filters := none, denominator_filters := none } }
    { is_active := true, module := "m", model := "T",
      date_field := "d", aggregation := "SUM", value_field := "amt",
      distinct_field := "id", filters := [],
      numerator_filters := none, denominator_filters := none }
    [{ date := 5, fields := [], numfields := [("amt", 7)] }]
    rfl rfl rfl rfl

/-- C7 counterexample: `calc_IRI_012` is a registered formula, yet
invoked with no tickets at all it returns early and saves nothing — no
IndicatorValue is persisted, contradicting the claimed zero-result
save. -/
theorem formula_no_data_nothing_saved_cex :
    FORMULAS.lookup "IRI_012" = some calc_IRI_012 ∧
    calc_IRI_012 emptyWorld
      { code := "IRI_012", is_active := true, method := "AUTOMATIQUE",
        formula := some "IRI_012", data_source := none } 0 10 =
      Except.ok [] := by
  exact ⟨rfl, rfl⟩

/-- C7 amended: on a period with no underlying source rows, every
registered formula function except `calc_IRI_012` saves exactly one
IndicatorValue with value `0` (with its own provenance/gender fields)
and none of them raises; `calc_IRI_012` alone returns without saving
anything. -/
theorem registered_formulas_empty_data (ind : Indicator) (start finish : Int) :
    calc_IRI_012 emptyWorld ind start finish = Except.ok [] ∧
    calc_ODP_002 emptyWorld ind start finish =
      Except.ok [⟨ind.code, start, finish, 0, none, none,
        "Payroll / Social Protection"⟩] ∧
    calc_ODP_003 emptyWorld ind start finish =
      Except.ok [⟨ind.code, start, finish, 0, none, some "F",
        "Payroll / Social Protection"⟩] ∧
    calc_ODP_004 emptyWorld ind start finish =
      Except.ok [⟨ind.code, start, finish, 0, none, none, "SYSTEM"⟩] ∧
    calc_ODP_005 emptyWorld ind start finish =
      Except.ok [⟨ind.code, start, finish, 0, none, none, "SYSTEM"⟩] ∧
    calc_ODP_006 emptyWorld ind start finish =
      Except.ok [⟨ind.code, start, finish, 0, none, none, "SYSTEM"⟩] ∧
    calc_PIP_011 emptyWorld ind start finish =
      Except.ok [⟨ind.code, start, finish, 0, none, none,
        "Fiche d’enregistrement"⟩] ∧
    calc_PIP_013 emptyWorld ind start finish =
      Except.ok [⟨ind.code, start, finish, 0, none, none,
        "Fiche de constitution des Sèrès Nafa"⟩] ∧
    calc_PIP_014 emptyWorld ind start finish =
      Except.ok [⟨ind.code, start, finish, 0, none, none,
        "Fiche de suivi des Sèrès Nafa"⟩] ∧
    calc_PIP_015 emptyWorld ind start finish =
      Except.ok [⟨ind.code, start, finish, 0, none, none,
        "Fiche de suivi des Sèrès Nafa"⟩] ∧
    calc_PIP_016 emptyWorld ind start finish =
      Except.ok [⟨ind.code, start, finish, 0, none, none,
        "Fiche de suivi des Sèrès Nafa"⟩] ∧
    calc_PIP_017 emptyWorld ind start finish =
      Except.ok [⟨ind.code, start, finish, 0, none, none,
        "Fiche de suivi des Sèrès Nafa"⟩] ∧
    calc_PIP_018 emptyWorld ind start finish =
      Except.ok [⟨ind.code, start, finish, 0, none, none,
        "Fiche de suivi des Sèrès Nafa"⟩] := by
  refine ⟨rfl, ?_, rfl, rfl, rfl, rfl, rfl, rfl, rfl, rfl, rfl, rfl, rfl⟩
  simp [calc_ODP_002, emptyWorld]

/-- C10: the Sèrè-Nafa follow-up formulas `calc_PIP_015` and
`calc_PIP_017` apply no date filter to the submission query, so for a
fixed world the stored scalar is identical under any two period
arguments — the period only determines the (period_start, period_end)
key of the single saved row. -/
theorem sere_nafa_value_period_invariant (w : World) (ind : Indicator)
    (s1 e1 s2 e2 : Int) :
    ((calc_PIP_015 w ind s1 e1).map (List.map SaveCall.value) =
      (calc_PIP_015 w ind s2 e2).map (List.map SaveCall.value)) ∧
    ((calc_PIP_017 w ind s1 e1).map (List.map SaveCall.value) =
      (calc_PIP_017 w ind s2 e2).map (List.map SaveCall.value)) ∧
    (∀ l, calc_PIP_015 w ind s1 e1 = Except.ok l →
      l.map (fun r => (r.indicator, r.start, r.finish)) = [(ind.code, s1, e1)]) ∧
    (∀ l, calc_PIP_017 w ind s1 e1 = Except.ok l →
      l.map (fun r => (r.indicator, r.start, r.finish)) = [(ind.code, s1, e1)]) := by
  refine ⟨?_, ?_, ?_, ?_⟩
  · by_cases h : (w.submissions.filter
        (fun s => s.form_type == "FICHE_SUIVI_SERE_NAFA")).isEmpty <;>
      simp [calc_PIP_015, h, Except.map]
  · by_cases h : (w.submissions.filter
        (fun s => s.form_type == "FICHE_SUIVI_SERE_NAFA")).isEmpty <;>
      simp [calc_PIP_017, h, Except.map]
  · intro l hl
    by_cases h : (w.submissions.filter
        (fun s => s.form_type == "FICHE_SUIVI_SERE_NAFA")).isEmpty <;>
      simp [calc_PIP_015, h] at hl <;> rw [← hl] <;> simp
  · intro l hl
    by_cases h : (w.submissions.filter
        (fun s => s.form_type == "FICHE_SUIVI_SERE_NAFA")).isEmpty <;>
      simp [calc_PIP_017, h] at hl <;> rw [← hl] <;> simp

/-- Witness for C10: the stored scalar of `calc_PIP_015` on `worldC10`
is the same under periods (0,1) and (5,6), and the row produced under
(0,1) is keyed exactly by (0,1). -/
theorem sere_nafa_value_period_invariant_witness :
    (calc_PIP_015 worldC10
        { code := "Z", is_active := true, method := "AUTOMATIQUE",
          formula := some "PIP_15", data_source := none } 0 1).map
      (List.map SaveCall.value) =
    (calc_PIP_015 worldC10
        { code := "Z", is_active := true, method := "AUTOMATIQUE",
          formula := some "PIP_15", data_source := none } 5 6).map
      (List.map SaveCall.value) ∧
    ([({ indicator := "Z", start := 0, finish := 1, value := 50,
         region := none, gender := none,
         source := "Fiche de suivi des Sèrès Nafa" } : SaveCall)].map
      (fun r => (r.indicator, r.start, r.finish))) = [("Z", 0, 1)] := by
  have hcalc : calc_PIP_015 worldC10
      { code := "Z", is_active := true, method := "AUTOMATIQUE",
        formula := some "PIP_15", data_source := none } 0 1 =
      Except.ok [{ indicator := "Z", start := 0, finish := 1, value := 50,
                   region := none, gender := none,
                   source := "Fiche de suivi des Sèrès Nafa" }] := by
    simp [calc_PIP_015, worldC10, intFloatOr0, pyFloat, ratTrunc, floatOr0,
      round2, round_eq]
    norm_num
  have h := sere_nafa_value_period_invariant worldC10
    { code := "Z", is_active := true, method := "AUTOMATIQUE",
      formula := some "PIP_15", data_source := none } 0 1 5 6
  exact ⟨h.1, h.2.2.1 _ hcalc⟩
